import Mathlib

/-
Verification of the signal-fusion / trade-level engine and the market
simulation environment of the ai-trader rl-service.

Python floats are modelled as exact rationals (ℚ); Python `round(x, n)`
(round-half-to-even) is modelled by `roundHalfEven`/`round_to`; Python
dicts with `.get(key, default)` access are modelled as records whose
fields carry the corresponding defaults.
-/

namespace AITrader

/-- Round-half-to-even to the nearest integer, as Python's builtin `round`. -/
def roundHalfEven (q : ℚ) : ℤ :=
  if q - ⌊q⌋ < 1/2 then ⌊q⌋
  else if 1/2 < q - ⌊q⌋ then ⌊q⌋ + 1
  else if ⌊q⌋ % 2 = 0 then ⌊q⌋ else ⌊q⌋ + 1

/-- Python `round(q, n)`: round to `n` decimal places, ties to even. -/
def round_to (n : ℕ) (q : ℚ) : ℚ :=
  ((roundHalfEven (q * 10 ^ n) : ℤ) : ℚ) / 10 ^ n

theorem roundHalfEven_cases (q : ℚ) :
    roundHalfEven q = ⌊q⌋ ∨ roundHalfEven q = ⌊q⌋ + 1 := by
  unfold roundHalfEven
  split_ifs <;> simp

theorem roundHalfEven_ge (q : ℚ) (a : ℤ) (h : (a : ℚ) ≤ q) :
    a ≤ roundHalfEven q := by
  have hf : a ≤ ⌊q⌋ := Int.le_floor.mpr h
  rcases roundHalfEven_cases q with h' | h' <;> omega

theorem roundHalfEven_le (q : ℚ) (b : ℤ) (h : q ≤ (b : ℚ)) :
    roundHalfEven q ≤ b := by
  have hfb : ⌊q⌋ ≤ b := by
    have := Int.floor_le_floor h
    simpa using this
  unfold roundHalfEven
  split_ifs with h1 h2 h3
  · exact hfb
  · have hlt : (⌊q⌋ : ℚ) < (b : ℚ) := by
      have hq : (⌊q⌋ : ℚ) ≤ q := Int.floor_le q
      linarith
    have : ⌊q⌋ < b := by exact_mod_cast hlt
    omega
  · exact hfb
  · have hr : q - ⌊q⌋ = 1/2 := by
      push_neg at h1 h2
      linarith
    have hlt : (⌊q⌋ : ℚ) < (b : ℚ) := by linarith
    have : ⌊q⌋ < b := by exact_mod_cast hlt
    omega

theorem round_to_bounds (n : ℕ) (q : ℚ) (a b : ℤ)
    (ha : (a : ℚ) ≤ q * 10 ^ n) (hb : q * 10 ^ n ≤ (b : ℚ)) :
    (a : ℚ) / 10 ^ n ≤ round_to n q ∧ round_to n q ≤ (b : ℚ) / 10 ^ n := by
  have hpow : (0 : ℚ) < 10 ^ n := by positivity
  constructor
  · exact (div_le_div_right hpow).mpr (by exact_mod_cast roundHalfEven_ge _ _ ha)
  · exact (div_le_div_right hpow).mpr (by exact_mod_cast roundHalfEven_le _ _ hb)

theorem round_to_nonneg (n : ℕ) (q : ℚ) (h : 0 ≤ q) : 0 ≤ round_to n q := by
  have h0 : ((0 : ℤ) : ℚ) ≤ q * 10 ^ n := by positivity
  have := roundHalfEven_ge (q * 10 ^ n) 0 h0
  have hpow : (0 : ℚ) < 10 ^ n := by positivity
  unfold round_to
  positivity

theorem roundHalfEven_intCast (n : ℤ) : roundHalfEven (n : ℚ) = n := by
  unfold roundHalfEven
  rw [Int.floor_intCast]
  norm_num

/-- Python `f"{q:.1f}"` on an exact rational: one decimal place, ties to even. -/
def fmt1 (q : ℚ) : String :=
  let n : ℤ := roundHalfEven (q * 10)
  toString (n / 10) ++ "." ++ toString ((n % 10).natAbs)

/-- Python `f"{q:.1%}"`: percentage with one decimal place. -/
def fmt_pct (q : ℚ) : String :=
  fmt1 (q * 100) ++ "%"

theorem fmt1_08 : fmt1 (4 / 5) = "0.8" := by
  have h : (4 / 5 : ℚ) * 10 = ((8 : ℤ) : ℚ) := by norm_num
  unfold fmt1
  rw [h, roundHalfEven_intCast]
  rfl

/-- Volume analysis features (features.py `VolumeFeatures`). -/
structure VolumeFeatures where
  volumeRatio : ℚ := 1
  avgVolume : ℚ := 0
  currentVolume : ℚ := 0
deriving DecidableEq

/-- SMC Order Block (features.py `OrderBlock` / order-block dicts).
The optional `index` field is never read by the scoring code and is omitted. -/
structure OrderBlock where
  type : String := "BULLISH"
  high : ℚ := 0
  low : ℚ := 0
  strength : ℚ := 0
deriving DecidableEq

/-- SMC Fair Value Gap (features.py `FairValueGap` / gap dicts). -/
structure FairValueGap where
  type : String := "BULLISH"
  high : ℚ := 0
  low : ℚ := 0
  size : ℚ := 0
deriving DecidableEq

/-- Optimal entry zone dict `{high, low, direction}`. -/
structure OteZone where
  high : ℚ := 0
  low : ℚ := 0
  direction : String := ""
deriving DecidableEq

/-- Smart Money Concepts features (features.py `SMCFeatures`). -/
structure SMCFeatures where
  orderBlocks : List OrderBlock := []
  fairValueGaps : List FairValueGap := []
  bosDirection : String := "NONE"
  oteZone : Option OteZone := none
  killZone : String := "NONE"
  smcBias : String := "NONE"
deriving DecidableEq

/-- features.py `calculate_enhanced_confidence`: multiply the modifiers,
clamp to [0.2, 0.95], round to 4 decimal places. -/
def calculate_enhanced_confidence (base_confidence smc_modifier volume_modifier : ℚ)
    (smc_reason volume_reason : String) : ℚ × String :=
  let raw_confidence := base_confidence * smc_modifier * volume_modifier
  let final_confidence := max 0.2 (min 0.95 raw_confidence)
  (round_to 4 final_confidence, "SMC: " ++ smc_reason ++ " | Volume: " ++ volume_reason)

/-- features.py `score_volume_confirmation`: step function on the volume
ratio (the source binds `ratio = volume.volumeRatio`, inlined here). -/
def score_volume_confirmation (volume : VolumeFeatures) (base_action : String) : ℚ × String :=
  if 2 ≤ volume.volumeRatio then
    (1.25, "High volume confirmation (" ++ fmt1 volume.volumeRatio ++ "x avg)")
  else if 1.5 ≤ volume.volumeRatio then
    (1.15, "Above average volume (" ++ fmt1 volume.volumeRatio ++ "x avg)")
  else if 0.8 ≤ volume.volumeRatio then
    (1, "Normal volume (" ++ fmt1 volume.volumeRatio ++ "x avg)")
  else if 0.5 ≤ volume.volumeRatio then
    (0.85, "Below average volume (" ++ fmt1 volume.volumeRatio ++ "x avg)")
  else
    (0.7, "Very low volume - suspicious (" ++ fmt1 volume.volumeRatio ++ "x avg)")

/-- features.py `should_prefer_hold`: anti-signal override to HOLD. -/
def should_prefer_hold (smc : SMCFeatures) (volume : VolumeFeatures)
    (base_confidence : ℚ) : Bool × String :=
  if smc.killZone = "NONE" ∧ volume.volumeRatio < 0.5 then
    (true, "Outside kill zone with very low volume")
  else if base_confidence < 0.55 ∧ (smc.bosDirection = "BULLISH" ∨ smc.bosDirection = "BEARISH") then
    (true, "Weak signal against market structure")
  else
    (false, "")

/-- C1: `calculate_enhanced_confidence` returns the base confidence times the
bias and volume modifiers, clamped to [0.2, 0.95] and rounded to 4 decimal
places; the returned confidence always satisfies 0.2 ≤ confidence ≤ 0.95,
no matter how extreme the modifiers are. -/
theorem c1_enhanced_confidence_clamped (b m v : ℚ) (r1 r2 : String) :
    (calculate_enhanced_confidence b m v r1 r2).1
      = round_to 4 (max 0.2 (min 0.95 (b * m * v))) ∧
    0.2 ≤ (calculate_enhanced_confidence b m v r1 r2).1 ∧
    (calculate_enhanced_confidence b m v r1 r2).1 ≤ 0.95 := by
  have hx1 : (0.2 : ℚ) ≤ max 0.2 (min 0.95 (b * m * v)) := le_max_left _ _
  have hx2 : max 0.2 (min 0.95 (b * m * v)) ≤ 0.95 :=
    max_le (by norm_num) (min_le_left _ _)
  have ha : ((2000 : ℤ) : ℚ) ≤ max 0.2 (min 0.95 (b * m * v)) * 10 ^ 4 := by
    push_cast
    nlinarith
  have hb : max 0.2 (min 0.95 (b * m * v)) * 10 ^ 4 ≤ ((9500 : ℤ) : ℚ) := by
    push_cast
    nlinarith
  obtain ⟨h1, h2⟩ := round_to_bounds 4 _ 2000 9500 ha hb
  refine ⟨rfl, ?_, ?_⟩
  · show (0.2 : ℚ) ≤ round_to 4 (max 0.2 (min 0.95 (b * m * v)))
    calc (0.2 : ℚ) = ((2000 : ℤ) : ℚ) / 10 ^ 4 := by norm_num
      _ ≤ _ := h1
  · show round_to 4 (max 0.2 (min 0.95 (b * m * v))) ≤ (0.95 : ℚ)
    calc round_to 4 (max 0.2 (min 0.95 (b * m * v)))
        ≤ ((9500 : ℤ) : ℚ) / 10 ^ 4 := h2
      _ = 0.95 := by norm_num

/-- C4: `should_prefer_hold` returns True exactly when (a) killZone = "NONE"
and volumeRatio < 0.5, or (b) baseConfidence < 0.55 and bosDirection is
BULLISH or BEARISH; rule (a) needs both of its conditions, is checked before
rule (b), and the reason string is that of the first matching rule. -/
theorem c4_should_prefer_hold_rules (smc : SMCFeatures) (vol : VolumeFeatures) (base : ℚ) :
    ((should_prefer_hold smc vol base).1 = true ↔
      ((smc.killZone = "NONE" ∧ vol.volumeRatio < 0.5) ∨
       (base < 0.55 ∧ (smc.bosDirection = "BULLISH" ∨ smc.bosDirection = "BEARISH")))) ∧
    ((smc.killZone = "NONE" ∧ vol.volumeRatio < 0.5) →
      should_prefer_hold smc vol base = (true, "Outside kill zone with very low volume")) ∧
    (¬(smc.killZone = "NONE" ∧ vol.volumeRatio < 0.5) →
      (base < 0.55 ∧ (smc.bosDirection = "BULLISH" ∨ smc.bosDirection = "BEARISH")) →
      should_prefer_hold smc vol base = (true, "Weak signal against market structure")) ∧
    (¬(smc.killZone = "NONE" ∧ vol.volumeRatio < 0.5) →
      ¬(base < 0.55 ∧ (smc.bosDirection = "BULLISH" ∨ smc.bosDirection = "BEARISH")) →
      should_prefer_hold smc vol base = (false, "")) := by
  unfold should_prefer_hold
  split_ifs with h1 h2 <;> refine ⟨?_, ?_, ?_, ?_⟩ <;> simp_all

/-- Witness for C4: rule (a) at a concrete input, rule (b) at a concrete
input where (a) does not fire, and no rule at a third input. -/
theorem c4_should_prefer_hold_rules_witness :
    should_prefer_hold { killZone := "NONE" } { volumeRatio := 0.3 } 0.9
      = (true, "Outside kill zone with very low volume") ∧
    should_prefer_hold { killZone := "LONDON", bosDirection := "BULLISH" } { volumeRatio := 0.3 } 0.5
      = (true, "Weak signal against market structure") ∧
    should_prefer_hold { killZone := "LONDON" } { volumeRatio := 1 } 0.9 = (false, "") := by
  refine ⟨?_, ?_, ?_⟩
  · exact (c4_should_prefer_hold_rules _ _ _).2.1 ⟨rfl, by norm_num⟩
  · exact (c4_should_prefer_hold_rules _ _ _).2.2.1 (by simp) ⟨by norm_num, Or.inl rfl⟩
  · exact (c4_should_prefer_hold_rules _ _ _).2.2.2 (by simp) (by norm_num)

/-- C8: `score_volume_confirmation` is the step function with lower-inclusive
closed-open bands: ratio ≥ 2.0 → 1.25, [1.5, 2.0) → 1.15, [0.8, 1.5) → 1.0,
[0.5, 0.8) → 0.85, and < 0.5 → 0.7; ratio = 0.8 yields exactly the "Normal"
band with modifier 1.0, not the "Below average" band. -/
theorem c8_volume_bands (vol : VolumeFeatures) (act : String) :
    (2 ≤ vol.volumeRatio → (score_volume_confirmation vol act).1 = 1.25) ∧
    (1.5 ≤ vol.volumeRatio ∧ vol.volumeRatio < 2 →
      (score_volume_confirmation vol act).1 = 1.15) ∧
    (0.8 ≤ vol.volumeRatio ∧ vol.volumeRatio < 1.5 →
      (score_volume_confirmation vol act).1 = 1) ∧
    (0.5 ≤ vol.volumeRatio ∧ vol.volumeRatio < 0.8 →
      (score_volume_confirmation vol act).1 = 0.85) ∧
    (vol.volumeRatio < 0.5 → (score_volume_confirmation vol act).1 = 0.7) ∧
    (vol.volumeRatio = 0.8 →
      score_volume_confirmation vol act = (1, "Normal volume (0.8x avg)")) := by
  refine ⟨?_, ?_, ?_, ?_, ?_, ?_⟩
  · intro h
    unfold score_volume_confirmation
    split_ifs <;> first | rfl | linarith
  · rintro ⟨h1, h2⟩
    unfold score_volume_confirmation
    split_ifs <;> first | rfl | linarith
  · rintro ⟨h1, h2⟩
    unfold score_volume_confirmation
    split_ifs <;> first | rfl | linarith
  · rintro ⟨h1, h2⟩
    unfold score_volume_confirmation
    split_ifs <;> first | rfl | linarith
  · intro h
    unfold score_volume_confirmation
    split_ifs <;> first | rfl | linarith
  · intro h
    unfold score_volume_confirmation
    rw [h]
    norm_num [fmt1_08]
    rfl

/-- Witness for C8: each band hit at a concrete ratio, including the 0.8
boundary landing in the "Normal" band. -/
theorem c8_volume_bands_witness :
    (score_volume_confirmation { volumeRatio := 2.5 } "LONG").1 = 1.25 ∧
    (score_volume_confirmation { volumeRatio := 1.6 } "LONG").1 = 1.15 ∧
    (score_volume_confirmation { volumeRatio := 1 } "LONG").1 = 1 ∧
    (score_volume_confirmation { volumeRatio := 0.6 } "LONG").1 = 0.85 ∧
    (score_volume_confirmation { volumeRatio := 0.3 } "LONG").1 = 0.7 ∧
    score_volume_confirmation { volumeRatio := 0.8 } "LONG" = (1, "Normal volume (0.8x avg)") := by
  refine ⟨?_, ?_, ?_, ?_, ?_, ?_⟩
  · exact (c8_volume_bands _ _).1 (by norm_num)
  · exact (c8_volume_bands _ _).2.1 ⟨by norm_num, by norm_num⟩
  · exact (c8_volume_bands _ _).2.2.1 ⟨by norm_num, by norm_num⟩
  · exact (c8_volume_bands _ _).2.2.2.1 ⟨by norm_num, by norm_num⟩
  · exact (c8_volume_bands _ _).2.2.2.2.1 (by norm_num)
  · exact (c8_volume_bands _ _).2.2.2.2.2 rfl

/-- Character-list prefix test, auxiliary for Python's `in` on strings. -/
def chStarts : List Char → List Char → Bool
  | [], _ => true
  | _ :: _, [] => false
  | p :: ps, h :: hs => p == h && chStarts ps hs

/-- Character-list substring test, auxiliary for Python's `in` on strings. -/
def chHasSub (pat : List Char) : List Char → Bool
  | [] => pat.isEmpty
  | h :: hs => chStarts pat (h :: hs) || chHasSub pat hs

/-- Python `pat in hay` on strings (substring containment). -/
def strHasSub (hay pat : String) : Bool :=
  chHasSub pat.data hay.data

/-- features.py `get_nearest_order_block`: nearest matching order block
(bullish below price with greatest high, bearish above price with smallest
low; Python's `max`/`min` keep the first of equal keys, as the fold does). -/
def get_nearest_order_block (order_blocks : List OrderBlock) (current_price : ℚ)
    (block_type : String) : Option OrderBlock :=
  if block_type = "BULLISH" then
    match (order_blocks.filter (fun ob => decide (ob.type = block_type))).filter
        (fun ob => decide (ob.high < current_price)) with
    | [] => none
    | x :: xs => some (xs.foldl (fun best ob => if best.high < ob.high then ob else best) x)
  else
    match (order_blocks.filter (fun ob => decide (ob.type = block_type))).filter
        (fun ob => decide (current_price < ob.low)) with
    | [] => none
    | x :: xs => some (xs.foldl (fun best ob => if ob.low < best.low then ob else best) x)

/-- features.py `is_in_fvg`: first fair value gap whose [low, high] contains
the price inclusively. -/
def is_in_fvg (fair_value_gaps : List FairValueGap) (current_price : ℚ) :
    Option FairValueGap :=
  fair_value_gaps.find? (fun fvg => decide (fvg.low ≤ current_price ∧ current_price ≤ fvg.high))

/-- score_smc_bias check 1: break-of-structure alignment. -/
def bos_adjust (smc : SMCFeatures) (base_action : String) : ℚ × List String :=
  if smc.bosDirection = "BULLISH" ∧ base_action = "LONG" then
    (0.15, ["BOS confirms bullish bias"])
  else if smc.bosDirection = "BEARISH" ∧ base_action = "SHORT" then
    (0.15, ["BOS confirms bearish bias"])
  else if smc.bosDirection ≠ "NONE" then
    if (smc.bosDirection = "BULLISH" ∧ base_action = "SHORT") ∨
       (smc.bosDirection = "BEARISH" ∧ base_action = "LONG") then
      (-0.2, ["BOS conflicts (market " ++ smc.bosDirection ++ ")"])
    else (0, [])
  else (0, [])

/-- score_smc_bias check 2: order-block proximity within 2% of price. -/
def ob_adjust (smc : SMCFeatures) (current_price : ℚ) (base_action : String) :
    ℚ × List String :=
  match get_nearest_order_block smc.orderBlocks current_price
      (if base_action = "LONG" then "BULLISH" else "BEARISH") with
  | none => (0, [])
  | some ob =>
    if |current_price - (ob.high + ob.low) / 2| / current_price < 0.02 then
      (min (ob.strength * 5) 0.2,
       ["Near " ++ (if base_action = "LONG" then "BULLISH" else "BEARISH") ++
        " OB (strength: " ++ fmt_pct ob.strength ++ ")"])
    else (0, [])

/-- score_smc_bias check 3: fair-value-gap occupancy. -/
def fvg_adjust (smc : SMCFeatures) (current_price : ℚ) (base_action : String) :
    ℚ × List String :=
  match is_in_fvg smc.fairValueGaps current_price with
  | none => (0, [])
  | some fvg =>
    if (fvg.type = "BULLISH" ∧ base_action = "LONG") ∨
       (fvg.type = "BEARISH" ∧ base_action = "SHORT") then
      (0.1, ["In " ++ fvg.type ++ " FVG"])
    else
      (-0.1, ["In opposing FVG (" ++ fvg.type ++ ")"])

/-- score_smc_bias check 4: optimal-entry-zone membership. -/
def ote_adjust (smc : SMCFeatures) (current_price : ℚ) (base_action : String) :
    ℚ × List String :=
  match smc.oteZone with
  | none => (0, [])
  | some z =>
    if z.low ≤ current_price ∧ current_price ≤ z.high then
      if strHasSub z.direction "BULLISH" ∧ base_action = "LONG" then
        (0.15, ["In OTE zone for long entry"])
      else if strHasSub z.direction "BEARISH" ∧ base_action = "SHORT" then
        (0.15, ["In OTE zone for short entry"])
      else (0, [])
    else (0, [])

/-- score_smc_bias check 5: kill-zone session bonus. -/
def kz_adjust (smc : SMCFeatures) : ℚ × List String :=
  if smc.killZone = "LONDON" ∨ smc.killZone = "NEW_YORK" then
    (0.1, [smc.killZone ++ " kill zone active"])
  else if smc.killZone = "ASIAN" then
    (0.05, ["Asian session (range likely)"])
  else (0, [])

/-- features.py `score_smc_bias`: the source accumulates `modifier += …` over
five independent checks starting from 1.0; this is the sum of the five
adjustments above, with the rationale strings joined in source order. -/
def score_smc_bias (smc : SMCFeatures) (current_price : ℚ) (base_action : String) :
    ℚ × String :=
  (1 + (bos_adjust smc base_action).1 + (ob_adjust smc current_price base_action).1
     + (fvg_adjust smc current_price base_action).1
     + (ote_adjust smc current_price base_action).1 + (kz_adjust smc).1,
   if ((bos_adjust smc base_action).2 ++ (ob_adjust smc current_price base_action).2
       ++ (fvg_adjust smc current_price base_action).2
       ++ (ote_adjust smc current_price base_action).2 ++ (kz_adjust smc).2).isEmpty then
     "No SMC signals"
   else
     String.intercalate "; "
       ((bos_adjust smc base_action).2 ++ (ob_adjust smc current_price base_action).2
        ++ (fvg_adjust smc current_price base_action).2
        ++ (ote_adjust smc current_price base_action).2 ++ (kz_adjust smc).2))

theorem foldl_choice_mem {α : Type} (p : α → α → Prop) [DecidableRel p]
    (x : α) (xs : List α) :
    xs.foldl (fun best ob => if p best ob then ob else best) x ∈ x :: xs := by
  induction xs generalizing x with
  | nil => simp
  | cons y ys ih =>
    simp only [List.foldl_cons]
    rcases List.mem_cons.mp (ih (if p x y then y else x)) with h' | h'
    · rw [h']
      split_ifs <;> simp
    · simp [List.mem_cons, h']

theorem get_nearest_mem (obs : List OrderBlock) (price : ℚ) (t : String)
    (ob : OrderBlock) (h : get_nearest_order_block obs price t = some ob) :
    ob ∈ obs := by
  unfold get_nearest_order_block at h
  split_ifs at h
  · split at h
    · exact absurd h (by simp)
    · rename_i x xs heq
      cases h
      have hmem := foldl_choice_mem (fun best ob : OrderBlock => best.high < ob.high) x xs
      rw [← heq] at hmem
      exact List.mem_of_mem_filter (List.mem_of_mem_filter hmem)
  · split at h
    · exact absurd h (by simp)
    · rename_i x xs heq
      cases h
      have hmem := foldl_choice_mem (fun best ob : OrderBlock => ob.low < best.low) x xs
      rw [← heq] at hmem
      exact List.mem_of_mem_filter (List.mem_of_mem_filter hmem)

theorem bos_adjust_bounds (smc : SMCFeatures) (act : String) :
    -0.2 ≤ (bos_adjust smc act).1 ∧ (bos_adjust smc act).1 ≤ 0.15 := by
  unfold bos_adjust
  split_ifs <;> norm_num

theorem ob_adjust_bounds (smc : SMCFeatures) (price : ℚ) (act : String)
    (hs : ∀ ob ∈ smc.orderBlocks, 0 ≤ ob.strength) :
    0 ≤ (ob_adjust smc price act).1 ∧ (ob_adjust smc price act).1 ≤ 0.2 := by
  unfold ob_adjust
  split
  · norm_num
  · rename_i ob heq
    have h0 : 0 ≤ ob.strength := hs ob (get_nearest_mem _ _ _ _ heq)
    split_ifs <;>
      first
        | exact ⟨le_min (mul_nonneg h0 (by norm_num)) (by norm_num), min_le_right _ _⟩
        | norm_num

theorem fvg_adjust_bounds (smc : SMCFeatures) (price : ℚ) (act : String) :
    -0.1 ≤ (fvg_adjust smc price act).1 ∧ (fvg_adjust smc price act).1 ≤ 0.1 := by
  unfold fvg_adjust
  split
  · norm_num
  · split_ifs <;> norm_num

theorem ote_adjust_bounds (smc : SMCFeatures) (price : ℚ) (act : String) :
    0 ≤ (ote_adjust smc price act).1 ∧ (ote_adjust smc price act).1 ≤ 0.15 := by
  unfold ote_adjust
  split
  · norm_num
  · split_ifs <;> norm_num

theorem kz_adjust_bounds (smc : SMCFeatures) :
    0 ≤ (kz_adjust smc).1 ∧ (kz_adjust smc).1 ≤ 0.1 := by
  unfold kz_adjust
  split_ifs <;> norm_num

/-- Input refuting C9 as stated: a bullish order block within 2% of price
whose `strength` is -1 (the dict field is not validated by the code). -/
def smc_c9 : SMCFeatures :=
  { orderBlocks := [{ type := "BULLISH", high := 99, low := 99, strength := -1 }] }

/-- Counterexample to C9: with an order block of strength -1 within 2% of
price 100, `score_smc_bias` adds min(-5, 0.2) = -5 and the modifier is -4,
far outside [0.7, 1.7]. -/
theorem c9_bias_modifier_counterexample :
    (score_smc_bias smc_c9 100 "LONG").1 = -4 ∧
    (score_smc_bias smc_c9 100 "LONG").1 < 0.7 := by
  have h : (score_smc_bias smc_c9 100 "LONG").1 = -4 := by
    simp +decide [score_smc_bias, bos_adjust, ob_adjust, fvg_adjust, ote_adjust,
      kz_adjust, get_nearest_order_block, is_in_fvg, smc_c9, List.filter]
    norm_num
  exact ⟨h, by rw [h]; norm_num⟩

/-- C9 (amended): for every SMCFeatures input whose order blocks all carry a
nonnegative strength (the data model requires strength ∈ [0,1]), every
positive price and any proposed action, the bias modifier of
`score_smc_bias` lies in [0.7, 1.7]. -/
theorem c9_bias_modifier_bounded (smc : SMCFeatures) (price : ℚ) (act : String)
    (hp : 0 < price) (hs : ∀ ob ∈ smc.orderBlocks, 0 ≤ ob.strength) :
    0.7 ≤ (score_smc_bias smc price act).1 ∧ (score_smc_bias smc price act).1 ≤ 1.7 := by
  obtain ⟨h1a, h1b⟩ := bos_adjust_bounds smc act
  obtain ⟨h2a, h2b⟩ := ob_adjust_bounds smc price act hs
  obtain ⟨h3a, h3b⟩ := fvg_adjust_bounds smc price act
  obtain ⟨h4a, h4b⟩ := ote_adjust_bounds smc price act
  obtain ⟨h5a, h5b⟩ := kz_adjust_bounds smc
  unfold score_smc_bias
  constructor <;> simp only [] <;> linarith

/-- Witness for C9 (amended) at the all-default features and price 100. -/
theorem c9_bias_modifier_bounded_witness :
    0.7 ≤ (score_smc_bias {} 100 "LONG").1 ∧ (score_smc_bias {} 100 "LONG").1 ≤ 1.7 :=
  c9_bias_modifier_bounded {} 100 "LONG" (by norm_num) (by simp)

/-- Trade levels result (`{entry, stopLoss, takeProfit, riskRewardRatio}`);
the source's empty dict `{}` is modelled as `none`. -/
structure TradeLevels where
  entry : ℚ
  stopLoss : ℚ
  takeProfit : ℚ
  riskRewardRatio : ℚ
deriving DecidableEq

/-- calculate_trade_levels: ATR fallback to 1% of price when not supplied or ≤ 0. -/
def atr_or_default (current_price atr : ℚ) : ℚ :=
  if 0 < atr then atr else current_price * 0.01

/-- calculate_trade_levels, LONG branch: initial stop 1.5×ATR below price,
tightened to 0.998 × low of the nearest bullish order block below price,
then to 0.998 × low of any bullish gap below price when that is higher. -/
def long_stop_loss (smc : SMCFeatures) (current_price atrv : ℚ) : ℚ :=
  let sl1 :=
    if (smc.orderBlocks.filter (fun ob => decide (ob.type = "BULLISH"))).isEmpty then
      current_price - atrv * 1.5
    else
      match (smc.orderBlocks.filter (fun ob => decide (ob.type = "BULLISH"))).filter
          (fun ob => decide (ob.high < current_price)) with
      | [] => current_price - atrv * 1.5
      | x :: xs =>
        (xs.foldl (fun best ob => if best.high < ob.high then ob else best) x).low * 0.998
  smc.fairValueGaps.foldl
    (fun sl fvg =>
      if fvg.type = "BULLISH" ∧ fvg.high < current_price then
        if sl < fvg.low * 0.998 then fvg.low * 0.998 else sl
      else sl) sl1

/-- calculate_trade_levels, SHORT branch: mirror image of the LONG branch
using 1.002 × high of bearish zones/gaps above price. -/
def short_stop_loss (smc : SMCFeatures) (current_price atrv : ℚ) : ℚ :=
  let sl1 :=
    if (smc.orderBlocks.filter (fun ob => decide (ob.type = "BEARISH"))).isEmpty then
      current_price + atrv * 1.5
    else
      match (smc.orderBlocks.filter (fun ob => decide (ob.type = "BEARISH"))).filter
          (fun ob => decide (current_price < ob.low)) with
      | [] => current_price + atrv * 1.5
      | x :: xs =>
        (xs.foldl (fun best ob => if ob.low < best.low then ob else best) x).high * 1.002
  smc.fairValueGaps.foldl
    (fun sl fvg =>
      if fvg.type = "BEARISH" ∧ current_price < fvg.low then
        if fvg.high * 1.002 < sl then fvg.high * 1.002 else sl
      else sl) sl1

/-- The stop-loss computed inside calculate_trade_levels for the given
action (any action other than "LONG" takes the SHORT branch, as the source's
`else` does). -/
def stop_of (action : String) (current_price : ℚ) (smc : SMCFeatures) (atr : ℚ) : ℚ :=
  if action = "LONG" then long_stop_loss smc current_price (atr_or_default current_price atr)
  else short_stop_loss smc current_price (atr_or_default current_price atr)

/-- The take-profit computed inside calculate_trade_levels: risk times the
confidence-scaled reward multiple 1.5 + confidence×2, from the entry. -/
def take_profit_of (action : String) (current_price : ℚ) (smc : SMCFeatures)
    (atr confidence : ℚ) : ℚ :=
  if action = "LONG" then
    current_price + (current_price - stop_of action current_price smc atr) * (1.5 + confidence * 2)
  else
    current_price - (stop_of action current_price smc atr - current_price) * (1.5 + confidence * 2)

/-- features.py `calculate_trade_levels`: entry/stop/target/risk-reward, or
`none` (the empty dict) when the action is HOLD, the price is non-positive,
or a computed stop/target is ≤ 0. The risk/reward ratio is recomputed from
the final entry/stop/target and is 0 when the risk distance is 0; all four
outputs are rounded to 2 decimal places. -/
def calculate_trade_levels (action : String) (current_price : ℚ) (smc : SMCFeatures)
    (atr confidence : ℚ) : Option TradeLevels :=
  if action = "HOLD" ∨ current_price ≤ 0 then none
  else
    if stop_of action current_price smc atr ≤ 0 ∨
       take_profit_of action current_price smc atr confidence ≤ 0 then none
    else
      some
        { entry := round_to 2 current_price,
          stopLoss := round_to 2 (stop_of action current_price smc atr),
          takeProfit := round_to 2 (take_profit_of action current_price smc atr confidence),
          riskRewardRatio :=
            round_to 2
              (if 0 < |current_price - stop_of action current_price smc atr| then
                |take_profit_of action current_price smc atr confidence - current_price| /
                  |current_price - stop_of action current_price smc atr|
              else 0) }

/-- The concrete input of end-to-end scenario 3 (claim C5). -/
def smc_c5 : SMCFeatures :=
  { orderBlocks := [{ type := "BULLISH", high := 95, low := 90, strength := 0.1 }] }

/-- C5: for action LONG, price 100, a single bullish order block
{high 95, low 90, strength 0.1}, no gaps, atr = 0 (defaulting to 1% of
price = 1.0) and confidence 0.5, the returned levels are entry 100,
stop 90×0.998 = 89.82, take-profit 100 + 10.18×2.5 = 125.45, and the
recomputed risk/reward ratio 2.5. -/
theorem c5_scenario3_levels :
    calculate_trade_levels "LONG" 100 smc_c5 0 0.5 =
      some { entry := 100, stopLoss := 89.82, takeProfit := 125.45, riskRewardRatio := 2.5 } := by
  have hsl : stop_of "LONG" 100 smc_c5 0 = 89.82 := by
    simp +decide [stop_of, long_stop_loss, atr_or_default, smc_c5, List.filter]
    norm_num
  have htp : take_profit_of "LONG" 100 smc_c5 0 0.5 = 125.45 := by
    simp only [take_profit_of, if_pos rfl, hsl]
    norm_num
  simp only [calculate_trade_levels, hsl, htp]
  norm_num [round_to, roundHalfEven, Int.fract,
    abs_of_pos (show (0:ℚ) < 509/50 by norm_num),
    abs_of_pos (show (0:ℚ) < 509/20 by norm_num)]
  intro h
  simp at h

/-- C6: `calculate_trade_levels` (total in this embedding, as the source
never raises) returns a non-negative risk/reward ratio whenever it returns
levels, the ratio is 0 (not infinite/NaN) when the risk distance is 0, and a
non-positive price or a computed stop/target ≤ 0 yields the empty result. -/
theorem c6_trade_levels_safe (action : String) (price : ℚ) (smc : SMCFeatures)
    (atr conf : ℚ) :
    (price ≤ 0 → calculate_trade_levels action price smc atr conf = none) ∧
    (stop_of action price smc atr ≤ 0 ∨ take_profit_of action price smc atr conf ≤ 0 →
      calculate_trade_levels action price smc atr conf = none) ∧
    (∀ lv, calculate_trade_levels action price smc atr conf = some lv →
      0 ≤ lv.riskRewardRatio) ∧
    (∀ lv, calculate_trade_levels action price smc atr conf = some lv →
      stop_of action price smc atr = price → lv.riskRewardRatio = 0) := by
  refine ⟨?_, ?_, ?_, ?_⟩
  · intro h
    unfold calculate_trade_levels
    rw [if_pos (Or.inr h)]
  · intro h
    unfold calculate_trade_levels
    split_ifs with h1 h2
    · rfl
    · rfl
  · intro lv hlv
    unfold calculate_trade_levels at hlv
    split_ifs at hlv
    · cases hlv
      exact round_to_nonneg _ _ (div_nonneg (abs_nonneg _) (abs_nonneg _))
    · cases hlv
      exact round_to_nonneg _ _ (le_refl 0)
  · intro lv hlv hsp
    unfold calculate_trade_levels at hlv
    split_ifs at hlv with h1 h2 h3
    · exfalso
      rw [hsp] at h3
      simp at h3
    · cases hlv
      show round_to 2 0 = 0
      norm_num [round_to, roundHalfEven]

/-- Order block whose low of 0 drives the computed stop-loss to 0. -/
def smc_c6b : SMCFeatures :=
  { orderBlocks := [{ type := "BULLISH", high := 50, low := 0, strength := 0 }] }

/-- Order block whose 0.998 × low lands exactly on the price, so the final
risk distance is 0. -/
def smc_c6 : SMCFeatures :=
  { orderBlocks := [{ type := "BULLISH", high := 99, low := 50000 / 499, strength := 0 }] }

/-- Witness for C6: a non-positive price yields the empty result, a
degenerate stop ≤ 0 yields the empty result, and at the zero-risk input the
returned ratio is exactly 0 (hence non-negative). -/
theorem c6_trade_levels_safe_witness :
    calculate_trade_levels "LONG" (-5) {} 0 0.5 = none ∧
    calculate_trade_levels "LONG" 100 smc_c6b 0 0.5 = none ∧
    (0 : ℚ) ≤ ({ entry := 100, stopLoss := 100, takeProfit := 100, riskRewardRatio := 0 } :
      TradeLevels).riskRewardRatio ∧
    ({ entry := 100, stopLoss := 100, takeProfit := 100, riskRewardRatio := 0 } :
      TradeLevels).riskRewardRatio = 0 := by
  have hsl0 : stop_of "LONG" 100 smc_c6b 0 = 0 := by
    simp +decide [stop_of, long_stop_loss, atr_or_default, smc_c6b, List.filter]
  have hsl : stop_of "LONG" 100 smc_c6 0 = 100 := by
    simp +decide [stop_of, long_stop_loss, atr_or_default, smc_c6, List.filter]
    norm_num
  have htp : take_profit_of "LONG" 100 smc_c6 0 0.5 = 100 := by
    simp only [take_profit_of, if_pos rfl, hsl]
    norm_num
  have hres : calculate_trade_levels "LONG" 100 smc_c6 0 0.5 =
      some { entry := 100, stopLoss := 100, takeProfit := 100, riskRewardRatio := 0 } := by
    simp only [calculate_trade_levels, hsl, htp]
    norm_num [round_to, roundHalfEven, Int.fract]
    intro h
    simp at h
  exact ⟨(c6_trade_levels_safe "LONG" (-5) {} 0 0.5).1 (by norm_num),
    (c6_trade_levels_safe "LONG" 100 smc_c6b 0 0.5).2.1 (Or.inl (by simp [hsl0])),
    (c6_trade_levels_safe "LONG" 100 smc_c6 0 0.5).2.2.1 _ hres,
    (c6_trade_levels_safe "LONG" 100 smc_c6 0 0.5).2.2.2 _ hres hsl⟩

/-- Order block far below price: its low of 10 is much deeper than the
ATR-based stop. -/
def smc_c10 : SMCFeatures :=
  { orderBlocks := [{ type := "BULLISH", high := 95, low := 10, strength := 0 }] }

/-- C10: the order-block stop adjustment is not guaranteed to tighten the
stop: for a LONG at price 100 with atr 1 and a bullish block {high 95,
low 10}, the stop becomes 0.998 × 10 = 9.98, strictly below the initial
ATR stop 100 - 1.5, so the risk distance grows from 1.5 to 90.02. -/
theorem c10_stop_adjustment_not_tightening :
    long_stop_loss smc_c10 100 1 = 9.98 ∧
    long_stop_loss smc_c10 100 1 < 100 - 1 * 1.5 ∧
    calculate_trade_levels "LONG" 100 smc_c10 1 0.5 =
      some { entry := 100, stopLoss := 9.98, takeProfit := 325.05, riskRewardRatio := 2.5 } := by
  have hsl' : long_stop_loss smc_c10 100 1 = 9.98 := by
    simp +decide [long_stop_loss, smc_c10, List.filter]
    norm_num
  have hsl : stop_of "LONG" 100 smc_c10 1 = 9.98 := by
    simp only [stop_of, atr_or_default]
    norm_num [hsl']
  have htp : take_profit_of "LONG" 100 smc_c10 1 0.5 = 325.05 := by
    simp only [take_profit_of, if_pos rfl, hsl]
    norm_num
  refine ⟨hsl', by rw [hsl']; norm_num, ?_⟩
  simp only [calculate_trade_levels, hsl, htp]
  norm_num [round_to, roundHalfEven, Int.fract,
    abs_of_pos (show (0:ℚ) < 4501/50 by norm_num),
    abs_of_pos (show (0:ℚ) < 4501/20 by norm_num)]
  intro h
  simp at h

/-- One row of the price series after `_add_indicators` (trading_env.py):
the close/high/low prices and the precomputed indicator columns that
`step`/`_get_observation` read. Columns never read downstream (open,
volume, bb bounds) are omitted. -/
structure Row where
  close : ℚ := 0
  high : ℚ := 0
  low : ℚ := 0
  price_change : ℚ := 0
  rsi : ℚ := 0
  macd : ℚ := 0
  macd_signal : ℚ := 0
  bb_position : ℚ := 0
  volume_ratio : ℚ := 0
deriving DecidableEq, Inhabited

/-- TradingEnv constructor configuration (trading_env.py `__init__`). -/
structure EnvConfig where
  data : List Row
  initial_balance : ℚ := 10000
  transaction_cost : ℚ := 1 / 1000
  max_position_size : ℚ := 1
  lookback_window : ℕ := 20

/-- A record appended to `self.trades` when a position is closed. -/
structure Trade where
  type : String
  price : ℚ
  pnl : ℚ
deriving DecidableEq

/-- The mutable state of a TradingEnv instance. -/
structure EnvState where
  current_step : ℕ
  balance : ℚ
  position : ℤ
  entry_price : ℚ
  total_pnl : ℚ
  trades : List Trade
deriving DecidableEq

/-- trading_env.py `reset`: warm-up index, initial balance, flat position,
empty trade log. `reset` returns `(observation, {})`; the state part is
modelled here and the observation by `get_observation`. -/
def reset_state (cfg : EnvConfig) : EnvState :=
  { current_step := cfg.lookback_window,
    balance := cfg.initial_balance,
    position := 0,
    entry_price := 0,
    total_pnl := 0,
    trades := [] }

/-- Closing an open long at `price`: realize P&L, deduct the transaction
cost, append a `close_long` trade record (position is updated by the
caller, as in the source). -/
def close_long_state (cfg : EnvConfig) (s : EnvState) (price : ℚ) : EnvState :=
  { s with
    total_pnl := s.total_pnl + (price - s.entry_price) * cfg.max_position_size
      - price * cfg.transaction_cost,
    trades := s.trades ++
      [{ type := "close_long", price := price, pnl := (price - s.entry_price) * cfg.max_position_size }] }

/-- Closing an open short at `price`, mirror of `close_long_state`. -/
def close_short_state (cfg : EnvConfig) (s : EnvState) (price : ℚ) : EnvState :=
  { s with
    total_pnl := s.total_pnl + (s.entry_price - price) * cfg.max_position_size
      - price * cfg.transaction_cost,
    trades := s.trades ++
      [{ type := "close_short", price := price, pnl := (s.entry_price - price) * cfg.max_position_size }] }

/-- The position-change phase of `step` (trading_env.py lines 157-187),
evaluated against the position before any change: action 1 opens a long
(closing any short first), action 2 opens a short (closing any long first),
any other action is the HOLD branch, which flattens any open position. -/
def apply_action (cfg : EnvConfig) (s : EnvState) (price : ℚ) (action : ℕ) : EnvState :=
  if action = 1 then
    let s1 := if s.position = -1 then close_short_state cfg s price else s
    if s1.position ≠ 1 then
      { s1 with
        position := 1
        entry_price := price
        balance := s1.balance - price * cfg.transaction_cost }
    else s1
  else if action = 2 then
    let s1 := if s.position = 1 then close_long_state cfg s price else s
    if s1.position ≠ -1 then
      { s1 with
        position := -1
        entry_price := price
        balance := s1.balance - price * cfg.transaction_cost }
    else s1
  else
    if s.position = 1 then { close_long_state cfg s price with position := 0 }
    else if s.position = -1 then { close_short_state cfg s price with position := 0 }
    else s

/-- The `1e-10` constant of `_get_observation`. -/
def eps : ℚ := 1 / 10000000000

/-- trading_env.py `_get_observation`: the 10-float observation vector built
from the row at the state's `current_step` (out-of-range access, which
raises in the source, reads the default all-zero row here). -/
def get_observation (cfg : EnvConfig) (s : EnvState) : List ℚ :=
  [(cfg.data.getD s.current_step default).price_change * 100,
   ((cfg.data.getD s.current_step default).rsi - 50) / 50,
   (cfg.data.getD s.current_step default).macd /
     ((cfg.data.getD s.current_step default).close * 0.01 + eps),
   (cfg.data.getD s.current_step default).bb_position * 2 - 1,
   min (cfg.data.getD s.current_step default).volume_ratio 3 - 1,
   (s.position : ℚ),
   s.total_pnl / cfg.initial_balance,
   ((cfg.data.getD s.current_step default).high - (cfg.data.getD s.current_step default).low) /
     (cfg.data.getD s.current_step default).close,
   (cfg.data.getD s.current_step default).macd_signal /
     ((cfg.data.getD s.current_step default).close * 0.01 + eps),
   ((s.current_step : ℚ) / (cfg.data.length : ℚ)) * 2 - 1]

/-- The `info` dict returned by `step`: exactly the keys total_pnl,
position, trades, balance. -/
structure StepInfo where
  total_pnl : ℚ
  position : ℤ
  trades : ℕ
  balance : ℚ
deriving DecidableEq

/-- The value returned by `step` — the five-tuple
`(observation, reward, terminated, truncated, info)` — together with the
mutated environment state (`nextState`, the update of `self`). -/
structure StepResult where
  observation : List ℚ
  reward : ℚ
  terminated : Bool
  truncated : Bool
  info : StepInfo
  nextState : EnvState
deriving DecidableEq

/-- trading_env.py `step`: execute the action at the close of the row at
`current_step`, compute the reward (realized + unrealized with the
anti-churn penalty), advance `current_step`, and return the observation at
the advanced index plus termination flags and info. -/
def step (cfg : EnvConfig) (s : EnvState) (action : ℕ) : StepResult :=
  let current_price := (cfg.data.getD s.current_step default).close
  let s1 := apply_action cfg s current_price action
  let unrealized : ℚ :=
    if s1.position = 1 then (current_price - s1.entry_price) / s1.entry_price
    else if s1.position = -1 then (s1.entry_price - current_price) / s1.entry_price
    else 0
  let reward0 := s1.total_pnl / cfg.initial_balance * 100 + unrealized * 10
  let reward :=
    if 0 < s1.trades.length ∧ cfg.lookback_window + 1 < s.current_step then
      if 3 / 10 < (s1.trades.length : ℚ) / ((s.current_step : ℚ) - (cfg.lookback_window : ℚ)) then
        reward0 - 1 / 10
      else reward0
    else reward0
  let s2 := { s1 with current_step := s.current_step + 1 }
  { observation := get_observation cfg s2,
    reward := reward,
    terminated := decide (cfg.data.length - 1 ≤ s2.current_step),
    truncated := false,
    info := { total_pnl := s2.total_pnl, position := s2.position,
              trades := s2.trades.length, balance := s2.balance + s2.total_pnl },
    nextState := s2 }

/-- Iterating `step` with the HOLD action `n` times from a state. -/
def hold_iter (cfg : EnvConfig) : ℕ → EnvState → EnvState
  | 0, s => s
  | n + 1, s => hold_iter cfg n (step cfg s 0).nextState

theorem apply_action_hold_flat (cfg : EnvConfig) (s : EnvState) (price : ℚ)
    (h0 : s.position = 0) : apply_action cfg s price 0 = s := by
  unfold apply_action
  norm_num [h0]

theorem step_hold_flat (cfg : EnvConfig) (s : EnvState) (h0 : s.position = 0) :
    (step cfg s 0).nextState = { s with current_step := s.current_step + 1 } := by
  simp only [step, apply_action_hold_flat cfg s _ h0]

theorem hold_iter_flat (cfg : EnvConfig) (n : ℕ) (s : EnvState)
    (h : s.position = 0 ∧ s.trades = [] ∧ s.total_pnl = 0) :
    (hold_iter cfg n s).position = 0 ∧ (hold_iter cfg n s).trades = [] ∧
    (hold_iter cfg n s).total_pnl = 0 := by
  induction n generalizing s with
  | zero => exact h
  | succ n ih =>
    rw [hold_iter]
    apply ih
    rw [step_hold_flat cfg s h.1]
    exact ⟨h.1, h.2.1, h.2.2⟩

/-- C3: from `reset` (initial balance, flat position, empty trade log), any
episode consisting only of Hold steps leaves the trade log empty and the
cumulative realized P&L zero; and in any state with an open position (±1),
a single Hold step closes it fully — position becomes 0 and exactly one
trade record is appended. -/
theorem c3_hold_semantics (cfg : EnvConfig) (n : ℕ) :
    ((hold_iter cfg n (reset_state cfg)).trades = [] ∧
     (hold_iter cfg n (reset_state cfg)).total_pnl = 0) ∧
    ∀ s : EnvState, s.position = 1 ∨ s.position = -1 →
      (step cfg s 0).nextState.position = 0 ∧
      ∃ t : Trade, (step cfg s 0).nextState.trades = s.trades ++ [t] := by
  constructor
  · have h := hold_iter_flat cfg n (reset_state cfg) ⟨rfl, rfl, rfl⟩
    exact ⟨h.2.1, h.2.2⟩
  · intro s hs
    rcases hs with h1 | h1
    · refine ⟨?_, ⟨⟨"close_long", (cfg.data.getD s.current_step default).close,
        ((cfg.data.getD s.current_step default).close - s.entry_price) *
          cfg.max_position_size⟩, ?_⟩⟩ <;>
        simp [step, apply_action, h1, close_long_state]
    · refine ⟨?_, ⟨⟨"close_short", (cfg.data.getD s.current_step default).close,
        (s.entry_price - (cfg.data.getD s.current_step default).close) *
          cfg.max_position_size⟩, ?_⟩⟩ <;>
        simp [step, apply_action, h1, close_short_state]

/-- Witness configuration: a three-row series with no warm-up offset. -/
def cfg_env : EnvConfig :=
  { data := [{ close := 1 }, { close := 2 }, { close := 3 }], lookback_window := 0 }

/-- A state of `cfg_env` holding an open long position. -/
def s_env_long : EnvState :=
  { current_step := 1, balance := 10000, position := 1, entry_price := 1,
    total_pnl := 0, trades := [] }

/-- Witness for C3: two Hold steps from reset leave no trades and zero P&L,
and one Hold from a concrete open-long state flattens it and logs one trade. -/
theorem c3_hold_semantics_witness :
    ((hold_iter cfg_env 2 (reset_state cfg_env)).trades = [] ∧
     (hold_iter cfg_env 2 (reset_state cfg_env)).total_pnl = 0) ∧
    ((step cfg_env s_env_long 0).nextState.position = 0 ∧
     ∃ t : Trade, (step cfg_env s_env_long 0).nextState.trades = s_env_long.trades ++ [t]) :=
  ⟨(c3_hold_semantics cfg_env 2).1,
   (c3_hold_semantics cfg_env 2).2 s_env_long (Or.inl rfl)⟩

/-- C2 (amended): `step` returns the five-tuple (observation, reward,
terminated, truncated, info) — not a four-tuple — with `truncated` always
False; `info` has exactly the keys total_pnl, position, trades, balance,
and its balance carries equity = balance + realized P&L. -/
theorem c2_step_shape (cfg : EnvConfig) (s : EnvState) (a : ℕ)
    (ha : a = 0 ∨ a = 1 ∨ a = 2) :
    (step cfg s a).truncated = false ∧
    (step cfg s a).info =
      { total_pnl := (step cfg s a).nextState.total_pnl
        position := (step cfg s a).nextState.position
        trades := (step cfg s a).nextState.trades.length
        balance := (step cfg s a).nextState.balance + (step cfg s a).nextState.total_pnl } :=
  ⟨rfl, rfl⟩

/-- Witness for C2 (amended) at a concrete configuration, state and action. -/
theorem c2_step_shape_witness :
    (step cfg_env (reset_state cfg_env) 0).truncated = false :=
  (c2_step_shape cfg_env (reset_state cfg_env) 0 (Or.inl rfl)).1

/-- Counterexample to C2 as stated: at a concrete reachable state, the value
returned by `step` is a five-tuple — Gymnasium's (observation, reward,
terminated, truncated, info) — whose fifth slot `truncated` is present (and
False), so it is not the claimed four-tuple (observation, reward,
terminated, info). -/
theorem c2_step_counterexample :
    (step cfg_env (reset_state cfg_env) 1).truncated = false ∧
    (step cfg_env (reset_state cfg_env) 1).info.total_pnl = 0 :=
  ⟨rfl, rfl⟩

/-- C7 (amended): the observation returned by `step` is the one of the
post-step state, whose index is the incremented `current_step` — i.e. it is
built from the row one past the row whose close price executed the action. -/
theorem c7_observation_post_advance (cfg : EnvConfig) (s : EnvState) (a : ℕ) :
    (step cfg s a).observation = get_observation cfg (step cfg s a).nextState ∧
    (step cfg s a).nextState.current_step = s.current_step + 1 :=
  ⟨rfl, rfl⟩

/-- Rows differing only in `price_change`, to distinguish observations. -/
def cfg_c7 : EnvConfig :=
  { data := [{ close := 1 }, { close := 1, price_change := 1 }, { close := 1 }],
    lookback_window := 0 }

/-- Counterexample to C7 as stated: a Hold step from the reset state of
`cfg_c7` (position stays 0, so the pre-advance state is the reset state
itself) returns an observation different from the observation at the
pre-advance index — it is built from row 1, not row 0. -/
theorem c7_observation_counterexample :
    (step cfg_c7 (reset_state cfg_c7) 0).observation ≠
      get_observation cfg_c7 (reset_state cfg_c7) := by
  intro h
  have h0 := congrArg (fun l => l.headD 0) h
  simp [step, apply_action, get_observation, cfg_c7, reset_state] at h0

end AITrader
